import Mathlib

/-
  Verification of the test-signup registration service.

  The service (Express + in-memory store) is shallowly embedded here:
  - `MemStore` models `MemStorage.users` (a JS Map in insertion order);
  - `createUser`, `getUserByEmail` model the methods of `MemStorage`;
  - `registerRoute` models the `POST /api/register` handler,
    `verifyEmailRoute` the `POST /api/verify-email` handler;
  - external effects (zod email syntax check, the CleanSignups HTTP call,
    bcrypt, randomUUID, Date) are supplied through an `Env` record, one per
    request;
  - thrown JS values are modelled by `Thrown` (a zod error, an `Error`
    instance with its message, or a non-`Error` value).
-/

namespace Signup

/-- A stored user record (`User` in shared/schema.ts). -/
structure User where
  id : String
  name : String
  email : String
  password : String
  verified : Bool
  createdAt : Nat
  deriving Repr, DecidableEq

/-- The parsed registration payload (`InsertUser`). -/
structure InsertUser where
  name : String
  email : String
  password : String
  deriving Repr, DecidableEq

/-- The sanitized user returned on 201: `const { password, ...userResponse } = user`.
    By construction it has no password field. -/
structure UserResponse where
  id : String
  name : String
  email : String
  verified : Bool
  createdAt : Nat
  deriving Repr, DecidableEq

/-- Dropping the password field from a record, as the destructuring does. -/
def userToResponse (u : User) : UserResponse :=
  { id := u.id, name := u.name, email := u.email,
    verified := u.verified, createdAt := u.createdAt }

/-- The CleanSignups verdict shape (`CleanSignupsResponse`). -/
structure CleanSignupsResponse where
  isTemporary : Bool
  isValid : Bool
  qualityScore : Option Nat
  risks : Option (List String)
  errMsg : Option String
  deriving Repr, DecidableEq

/-- A thrown JS value as the handlers distinguish them: a `z.ZodError`
    carrying field errors, an `Error` instance carrying its message, or any
    other thrown value. -/
inductive Thrown where
  | zodError (errors : List (String × String))
  | jsError (message : String)
  | nonError
  deriving Repr, DecidableEq

/-- Per-request external world: the zod email-syntax verdict, the outcome of
    the CleanSignups HTTP call (`Except.error msg` = the axios call failed),
    the outcome of `bcrypt.hash` (which may reject with a thrown value),
    `randomUUID()` and `new Date()`. -/
structure Env where
  emailValid : String → Bool
  verifier : String → Except String CleanSignupsResponse
  bcryptHash : String → Nat → Except Thrown String
  nextId : String
  now : Nat

/-- `verifyEmailWithCleanSignups`: returns the provider verdict, or on any
    failure of the call swallows the error and returns the permissive verdict
    `isTemporary := false, isValid := true` with the error message attached. -/
def verifyEmailWithCleanSignups (env : Env) (email : String) : CleanSignupsResponse :=
  match env.verifier email with
  | Except.ok r => r
  | Except.error msg =>
      { isTemporary := false, isValid := true,
        qualityScore := none, risks := none, errMsg := some msg }

/-- The in-memory store: `MemStorage.users` values in JS Map insertion order. -/
abbrev MemStore := List User

/-- `MemStorage.getUserByEmail`: first record whose email matches
    case-insensitively. -/
def getUserByEmail (users : MemStore) (email : String) : Option User :=
  users.find? (fun u => u.email.toLower == email.toLower)

/-- `this.users.set(id, user)` on a JS Map: replace the entry with this id if
    present, otherwise append. -/
def mapSet (users : MemStore) (u : User) : MemStore :=
  if users.any (fun v => v.id == u.id) then
    users.map (fun v => if v.id == u.id then u else v)
  else
    users ++ [u]

/-- `MemStorage.createUser`: reject a case-insensitive duplicate email with an
    `Error`, hash the password with bcrypt at cost 12 (propagating a bcrypt
    failure), then store the new record under a fresh id. -/
def createUser (env : Env) (users : MemStore) (iu : InsertUser) :
    Except Thrown (User × MemStore) :=
  match getUserByEmail users iu.email with
  | some _ => Except.error (Thrown.jsError "An account with this email already exists")
  | none =>
      match env.bcryptHash iu.password 12 with
      | Except.error e => Except.error e
      | Except.ok hashed =>
          let u : User :=
            { id := env.nextId, name := iu.name, email := iu.email,
              password := hashed, verified := false, createdAt := env.now }
          Except.ok (u, mapSet users u)

/-- Substring test on character lists, used to model JS `String.includes`. -/
def subListOf (needle : List Char) : List Char → Bool
  | [] => needle.isEmpty
  | c :: t => needle.isPrefixOf (c :: t) || subListOf needle t

/-- JS `s.includes(pat)`. -/
def strIncludes (s pat : String) : Bool :=
  subListOf pat.toList s.toList

/-- An HTTP JSON response as the two handlers shape it; absent JSON fields are
    `none` / `[]`. -/
structure Response where
  status : Nat
  message : String
  user : Option UserResponse := none
  errField : Option String := none
  errors : List (String × String) := []
  isTemporary : Option Bool := none
  isValid : Option Bool := none
  risks : Option (List String) := none
  deriving Repr, DecidableEq

/-- The raw body of `POST /api/register` (three string fields). -/
structure RegisterBody where
  name : String
  email : String
  password : String
  deriving Repr, DecidableEq

/-- `insertUserSchema.parse`: name at least 2 characters, syntactically valid
    email, password at least 8 characters; on failure throws a `ZodError`
    collecting one message per failing field. -/
def parseInsertUser (env : Env) (b : RegisterBody) : Except Thrown InsertUser :=
  let errs : List (String × String) :=
    (if b.name.length < 2 then [("name", "Name must be at least 2 characters")] else [])
    ++ (if env.emailValid b.email then [] else
        [("email", "Please enter a valid email address")])
    ++ (if b.password.length < 8 then
        [("password", "Password must be at least 8 characters")] else [])
  if errs.isEmpty then
    Except.ok { name := b.name, email := b.email, password := b.password }
  else
    Except.error (Thrown.zodError errs)

/-- The catch branch of the register handler: ZodError gives 400 with field
    errors; an `Error` whose message includes "email already exists" gives
    409; any other `Error` gives 400 with its message; a non-`Error` thrown
    value gives the generic 500. -/
def handleRegisterError (e : Thrown) : Response :=
  match e with
  | Thrown.zodError errs =>
      { status := 400, message := "Validation failed", errors := errs }
  | Thrown.jsError msg =>
      if strIncludes msg "email already exists" then
        { status := 409, message := msg, errField := some "email" }
      else
        { status := 400, message := msg }
  | Thrown.nonError =>
      { status := 500, message := "Registration failed. Please try again." }

/-- Outcome of one `POST /api/register` request: the response, the store
    afterwards, and whether the verifier call and the `createUser` call were
    reached. -/
structure RegisterResult where
  response : Response
  users : MemStore
  verifierCalled : Bool
  createUserCalled : Bool
  deriving Repr, DecidableEq

/-- The `POST /api/register` handler: parse the body, verify the email,
    reject flagged emails with 400, create the user, return 201 with the
    password stripped; errors thrown on the way go to `handleRegisterError`. -/
def registerRoute (env : Env) (users : MemStore) (body : RegisterBody) : RegisterResult :=
  match parseInsertUser env body with
  | Except.error e =>
      { response := handleRegisterError e, users := users,
        verifierCalled := false, createUserCalled := false }
  | Except.ok userData =>
      let emailVerification := verifyEmailWithCleanSignups env userData.email
      if emailVerification.isTemporary || !emailVerification.isValid then
        { response :=
            { status := 400,
              message :=
                "Please use a valid email address. Temporary or disposable emails are not allowed.",
              errField := some "email" },
          users := users, verifierCalled := true, createUserCalled := false }
      else
        match createUser env users userData with
        | Except.error e =>
            { response := handleRegisterError e, users := users,
              verifierCalled := true, createUserCalled := true }
        | Except.ok (user, users') =>
            { response :=
                { status := 201, message := "Registration successful",
                  user := some (userToResponse user) },
              users := users', verifierCalled := true, createUserCalled := true }

/-- The raw body of `POST /api/verify-email`: the email field may be absent. -/
structure VerifyEmailBody where
  email : Option String
  deriving Repr, DecidableEq

/-- `z.object({ email: z.string().email() }).parse(req.body)`. -/
def parseVerifyEmail (env : Env) (b : VerifyEmailBody) : Except Thrown String :=
  match b.email with
  | none => Except.error (Thrown.zodError [("email", "Required")])
  | some e =>
      if env.emailValid e then Except.ok e
      else Except.error (Thrown.zodError [("email", "Invalid email")])

/-- The `POST /api/verify-email` handler: any thrown error, including the
    schema-parse failure, lands in the single catch branch which answers 500;
    otherwise the verdict decides between 400 and 200. The second component
    records whether the outbound verification call was made. -/
def verifyEmailRoute (env : Env) (body : VerifyEmailBody) : Response × Bool :=
  match parseVerifyEmail env body with
  | Except.error _ =>
      ({ status := 500, message := "Unable to verify email at this time" }, false)
  | Except.ok email =>
      let result := verifyEmailWithCleanSignups env email
      if result.isTemporary || !result.isValid then
        ({ status := 400, message := "Please use a valid email address",
           isTemporary := some result.isTemporary, isValid := some result.isValid,
           risks := some (result.risks.getD []) }, true)
      else
        ({ status := 200, message := "Email is valid",
           isValid := some true, isTemporary := some false }, true)

/-! ### Client form controller (client/src/pages/registration.tsx, quoted in replit.md) -/

/-- The email field status machine of the registration page. -/
inductive EmailStatus where
  | idle
  | validating
  | valid
  | invalid
  deriving Repr, DecidableEq

/-- The local UI state of the `Registration` component: the three form fields
    managed by react-hook-form plus the four `useState` hooks
    (`showPassword`, `emailStatus`, `passwordStrength`, `termsAccepted`). -/
structure ClientState where
  formName : String
  formEmail : String
  formPassword : String
  showPassword : Bool
  emailStatus : EmailStatus
  passwordStrength : Nat
  termsAccepted : Bool
  deriving Repr, DecidableEq

/-- The initial client state: empty form default values, `useState(false)`,
    `useState('idle')`, `useState(0)`, `useState(false)`. -/
def initialClientState : ClientState :=
  { formName := "", formEmail := "", formPassword := "",
    showPassword := false, emailStatus := EmailStatus.idle,
    passwordStrength := 0, termsAccepted := false }

/-- `registrationMutation.onSuccess`: `form.reset()`, `setEmailStatus('idle')`,
    `setPasswordStrength(0)`, `setTermsAccepted(false)`. It does not touch
    `showPassword`. -/
def onRegistrationSuccess (s : ClientState) : ClientState :=
  { s with formName := "", formEmail := "", formPassword := "",
           emailStatus := EmailStatus.idle, passwordStrength := 0,
           termsAccepted := false }

/-- `calculatePasswordStrength`: one point per satisfied check. -/
def calculatePasswordStrength (password : String) : Nat :=
  (if password.length ≥ 8 then 1 else 0)
  + (if password.toList.any Char.isLower then 1 else 0)
  + (if password.toList.any Char.isUpper then 1 else 0)
  + (if password.toList.any Char.isDigit then 1 else 0)
  + (if password.toList.any (fun c => ¬c.isAlphanum) then 1 else 0)

/-! ### Store invariants and reachability -/

/-- Well-formedness of the store: pairwise distinct ids and pairwise
    case-insensitively distinct emails. -/
def storeWF (users : MemStore) : Prop :=
  List.Pairwise (fun a b => a.id ≠ b.id ∧ a.email.toLower ≠ b.email.toLower) users

/-- No two records share an email address case-insensitively. -/
def emailsUnique (users : MemStore) : Prop :=
  List.Pairwise (fun a b => a.email.toLower ≠ b.email.toLower) users

/-- Store states reachable through the registration workflow: the store starts
    empty (`new MemStorage()`) and evolves only by `POST /api/register`
    requests, each with its own external environment. -/
inductive Reachable : MemStore → Prop where
  | empty : Reachable []
  | step (s : MemStore) (env : Env) (body : RegisterBody) :
      Reachable s → Reachable (registerRoute env s body).users

/-! ### Concrete environments and bodies for witnesses -/

/-- The permissive verdict a healthy approving verifier returns. -/
def permissiveVerdict : CleanSignupsResponse :=
  { isTemporary := false, isValid := true,
    qualityScore := none, risks := none, errMsg := none }

/-- An environment where every external collaborator behaves: the email is
    syntactically fine, the verifier approves, bcrypt succeeds. -/
def envOk : Env :=
  { emailValid := fun _ => true,
    verifier := fun _ => Except.ok permissiveVerdict,
    bcryptHash := fun _ _ => Except.ok "$2b$12$c2FsdHNhbHRzYWx0c2FsdAabcdefghijklmnopqrstu",
    nextId := "id-1",
    now := 0 }

/-- The verifier flags every email as temporary. -/
def envTempFlag : Env :=
  { envOk with verifier := fun _ => Except.ok { permissiveVerdict with isTemporary := true } }

/-- The outbound verification call fails (network error). -/
def envNetFail : Env :=
  { envOk with verifier := fun _ => Except.error "Network Error" }

/-- bcrypt rejects with an `Error` instance. -/
def envBcryptThrow : Env :=
  { envOk with bcryptHash := fun _ _ => Except.error (Thrown.jsError "bcrypt failure") }

/-- bcrypt rejects with a non-`Error` value. -/
def envBcryptNonError : Env :=
  { envOk with bcryptHash := fun _ _ => Except.error Thrown.nonError }

/-- The spec's example registration request. -/
def janeBody : RegisterBody :=
  { name := "Jane Doe", email := "jane@example.com", password := "Str0ng!Pass" }

/-- The parsed form of `janeBody`. -/
def janeInsert : InsertUser :=
  { name := "Jane Doe", email := "jane@example.com", password := "Str0ng!Pass" }

/-- Replacing the verifier by one that answers the permissive verdict
    successfully, leaving every other collaborator unchanged. -/
def withPermissiveVerifier (env : Env) : Env :=
  { env with verifier := fun _ => Except.ok permissiveVerdict }

/-- A registration body whose name is a single character. -/
def shortNameBody : RegisterBody :=
  { name := "J", email := "jane@example.com", password := "Str0ng!Pass" }

/-- The record `createUser` builds for `janeInsert` under `envOk`. -/
def janeUser : User :=
  { id := "id-1", name := "Jane Doe", email := "jane@example.com",
    password := "$2b$12$c2FsdHNhbHRzYWx0c2FsdAabcdefghijklmnopqrstu",
    verified := false, createdAt := 0 }

/-- A filled-in client form with the password made visible. -/
def filledClientState : ClientState :=
  { formName := "Jane Doe", formEmail := "jane@example.com",
    formPassword := "Str0ng!Pass", showPassword := true,
    emailStatus := EmailStatus.valid, passwordStrength := 5,
    termsAccepted := true }

/-- A `POST /api/verify-email` body with no email field. -/
def noEmailBody : VerifyEmailBody := { email := none }

/-- The record `createUser` builds from a parsed body, a bcrypt hash and the
    request environment. -/
def mkUser (env : Env) (iu : InsertUser) (hashed : String) : User :=
  { id := env.nextId, name := iu.name, email := iu.email,
    password := hashed, verified := false, createdAt := env.now }

/-! ### Helper lemmas -/

theorem getUserByEmail_none {users : MemStore} {email : String}
    (h : getUserByEmail users email = none) :
    ∀ u ∈ users, u.email.toLower ≠ email.toLower := by
  intro u hu
  have := List.find?_eq_none.mp h u hu
  simpa using this

theorem mapSet_wf {users : MemStore} {u : User} (hwf : storeWF users)
    (hfresh : ∀ v ∈ users, v.email.toLower ≠ u.email.toLower) :
    storeWF (mapSet users u) := by
  unfold mapSet
  split
  · rw [storeWF, List.pairwise_map]
    refine hwf.imp_of_mem ?_
    intro a b ha hb hab
    split <;> split
    · rename_i h1 h2
      exact absurd ((beq_iff_eq.mp h1).trans (beq_iff_eq.mp h2).symm) hab.1
    · rename_i h1 h2
      exact ⟨fun he => hab.1 ((beq_iff_eq.mp h1).trans he), (hfresh b hb).symm⟩
    · rename_i h1 h2
      exact ⟨fun he => h1 (beq_iff_eq.mpr he), hfresh a ha⟩
    · exact hab
  · rename_i hany
    rw [storeWF, List.pairwise_append]
    refine ⟨hwf, by simp, ?_⟩
    intro a ha b hb
    rw [List.mem_singleton] at hb
    subst hb
    refine ⟨fun he => hany (List.any_eq_true.mpr ⟨a, ha, by simp [he]⟩), hfresh a ha⟩

theorem createUser_ok_elim {env : Env} {users users' : MemStore} {iu : InsertUser} {u : User}
    (h : createUser env users iu = Except.ok (u, users')) :
    getUserByEmail users iu.email = none ∧
    env.bcryptHash iu.password 12 = Except.ok u.password ∧
    u.id = env.nextId ∧ u.name = iu.name ∧ u.email = iu.email ∧
    u.verified = false ∧ u.createdAt = env.now ∧
    users' = mapSet users u := by
  unfold createUser at h
  split at h
  · exact absurd h (by simp)
  · rename_i hge
    split at h
    · exact absurd h (by simp)
    · rename_i hashed hb
      rw [Except.ok.injEq, Prod.mk.injEq] at h
      obtain ⟨hu, husers⟩ := h
      subst hu
      exact ⟨hge, hb, rfl, rfl, rfl, rfl, rfl, husers.symm⟩

theorem registerRoute_users_wf (env : Env) (users : MemStore) (body : RegisterBody)
    (hwf : storeWF users) : storeWF (registerRoute env users body).users := by
  unfold registerRoute
  cases hp : parseInsertUser env body with
  | error _ => exact hwf
  | ok iu =>
    simp only
    split
    · exact hwf
    · cases hc : createUser env users iu with
      | error _ => exact hwf
      | ok p =>
        obtain ⟨u, users'⟩ := p
        simp only
        obtain ⟨hge, -, -, -, hue, -, -, husers⟩ := createUser_ok_elim hc
        subst husers
        refine mapSet_wf hwf ?_
        intro v hv
        have := getUserByEmail_none hge v hv
        rwa [← hue] at this

theorem find?_append_of_none {α : Type} {p : α → Bool} {l : List α} {x : α}
    (hl : l.find? p = none) (hx : p x = true) : (l ++ [x]).find? p = some x := by
  induction l with
  | nil => simp [List.find?, hx]
  | cons a t ih =>
    cases hpa : p a with
    | true => simp [List.find?, hpa] at hl
    | false =>
      rw [List.find?] at hl
      rw [hpa] at hl
      rw [List.cons_append, List.find?, hpa]
      exact ih hl

theorem mem_mapSet {users : MemStore} {u v : User} (h : v ∈ mapSet users u) :
    v ∈ users ∨ v = u := by
  unfold mapSet at h
  split at h
  · rw [List.mem_map] at h
    obtain ⟨w, hw, hv⟩ := h
    by_cases hid : w.id = u.id
    · right
      rw [← hv]
      simp [hid]
    · left
      rw [← hv]
      simpa [hid] using hw
  · rw [List.mem_append, List.mem_singleton] at h
    exact h

/-! ### Claim theorems -/

/-- Claim C1: in every store state reachable through the registration workflow,
    no two user records share the same email address under case-insensitive
    comparison; `createUser` preserves this by consulting the case-insensitive
    lookup `getUserByEmail` before inserting. -/
theorem reachable_emails_unique (s : MemStore) (h : Reachable s) : emailsUnique s := by
  have hwf : storeWF s := by
    induction h with
    | empty => exact List.Pairwise.nil
    | step s env body hr ih => exact registerRoute_users_wf env s body ih
  exact hwf.imp (fun hab => hab.2)

/-- Witness for C1 at a concrete reachable state: the store after one
    successful registration from the empty store. -/
theorem reachable_emails_unique_witness :
    emailsUnique (registerRoute envOk [] janeBody).users :=
  reachable_emails_unique (registerRoute envOk [] janeBody).users
    (Reachable.step [] envOk janeBody Reachable.empty)

/-- Claim C2: a successful registration answers 201 with the sanitized user
    record — `id`, `name`, `email`, `verified`, `createdAt` — and, since
    `UserResponse` has no password field, no password. -/
theorem register_success_201_sanitized (env : Env) (users : MemStore) (body : RegisterBody)
    (iu : InsertUser) (hashed : String)
    (hp : parseInsertUser env body = Except.ok iu)
    (ht : (verifyEmailWithCleanSignups env iu.email).isTemporary = false)
    (hv : (verifyEmailWithCleanSignups env iu.email).isValid = true)
    (hd : getUserByEmail users iu.email = none)
    (hb : env.bcryptHash iu.password 12 = Except.ok hashed) :
    (registerRoute env users body).response.status = 201 ∧
    (registerRoute env users body).response.user =
      some { id := env.nextId, name := iu.name, email := iu.email,
             verified := false, createdAt := env.now } := by
  simp [registerRoute, hp, ht, hv, createUser, hd, hb, userToResponse]

/-- Witness for C2: the spec's example request against a healthy permissive
    verifier returns 201 with the sanitized Jane Doe record. -/
theorem register_success_201_sanitized_witness :
    (registerRoute envOk [] janeBody).response.status = 201 ∧
    (registerRoute envOk [] janeBody).response.user =
      some { id := "id-1", name := "Jane Doe", email := "jane@example.com",
             verified := false, createdAt := 0 } :=
  register_success_201_sanitized envOk [] janeBody janeInsert
    "$2b$12$c2FsdHNhbHRzYWx0c2FsdAabcdefghijklmnopqrstu" rfl rfl rfl rfl rfl

/-- Claim C3: a body failing the schema (name shorter than 2 characters, or a
    syntactically invalid email, or a password shorter than 8 characters) gets
    400 with field-level errors, the store is unchanged, and neither the
    verifier nor `createUser` is reached. -/
theorem register_schema_invalid_400 (env : Env) (users : MemStore) (body : RegisterBody)
    (h : body.name.length < 2 ∨ env.emailValid body.email = false ∨
         body.password.length < 8) :
    (registerRoute env users body).response.status = 400 ∧
    (registerRoute env users body).response.errors ≠ [] ∧
    (registerRoute env users body).users = users ∧
    (registerRoute env users body).verifierCalled = false ∧
    (registerRoute env users body).createUserCalled = false := by
  by_cases h1 : body.name.length < 2 <;>
    by_cases h2 : env.emailValid body.email = true <;>
    by_cases h3 : body.password.length < 8 <;>
    simp [registerRoute, parseInsertUser, handleRegisterError, h1, h2, h3] at h ⊢

/-- Witness for C3: a one-character name is rejected with 400 and no state
    change. -/
theorem register_schema_invalid_400_witness :
    shortNameBody.name.length < 2 ∧
    ((registerRoute envOk [] shortNameBody).response.status = 400 ∧
     (registerRoute envOk [] shortNameBody).response.errors ≠ [] ∧
     (registerRoute envOk [] shortNameBody).users = [] ∧
     (registerRoute envOk [] shortNameBody).verifierCalled = false ∧
     (registerRoute envOk [] shortNameBody).createUserCalled = false) :=
  ⟨by decide, register_schema_invalid_400 envOk [] shortNameBody (Or.inl (by decide))⟩

/-- Claim C4: for a schema-valid body whose verdict has `isTemporary = true` or
    `isValid = false`, the handler answers 400 with the email field flagged,
    the store is unchanged and `createUser` is never invoked. -/
theorem register_flagged_email_400 (env : Env) (users : MemStore) (body : RegisterBody)
    (iu : InsertUser)
    (hp : parseInsertUser env body = Except.ok iu)
    (hf : (verifyEmailWithCleanSignups env iu.email).isTemporary = true ∨
          (verifyEmailWithCleanSignups env iu.email).isValid = false) :
    (registerRoute env users body).response.status = 400 ∧
    (registerRoute env users body).users = users ∧
    (registerRoute env users body).createUserCalled = false ∧
    (registerRoute env users body).response.errField = some "email" := by
  rcases hf with hf | hf <;> simp [registerRoute, hp, hf]

/-- Witness for C4: a verifier flagging the email as temporary blocks the
    spec's example registration with 400. -/
theorem register_flagged_email_400_witness :
    (registerRoute envTempFlag [] janeBody).response.status = 400 ∧
    (registerRoute envTempFlag [] janeBody).users = [] ∧
    (registerRoute envTempFlag [] janeBody).createUserCalled = false ∧
    (registerRoute envTempFlag [] janeBody).response.errField = some "email" :=
  register_flagged_email_400 envTempFlag [] janeBody janeInsert rfl (Or.inl rfl)

/-- Claim C5: when the outbound verification call fails, the client answers
    the permissive verdict (`isValid = true`, `isTemporary = false`) instead of
    propagating the failure, and the register handler behaves exactly as with
    a healthy approving verifier. -/
theorem verifier_failure_permissive (env : Env) (msg : String)
    (hf : ∀ e, env.verifier e = Except.error msg) :
    (∀ e, (verifyEmailWithCleanSignups env e).isValid = true ∧
          (verifyEmailWithCleanSignups env e).isTemporary = false) ∧
    ∀ users body, registerRoute env users body =
      registerRoute (withPermissiveVerifier env) users body := by
  have h1 : ∀ e, verifyEmailWithCleanSignups env e =
      { isTemporary := false, isValid := true, qualityScore := none,
        risks := none, errMsg := some msg } := by
    intro e
    simp [verifyEmailWithCleanSignups, hf]
  have h2 : ∀ e, verifyEmailWithCleanSignups (withPermissiveVerifier env) e =
      permissiveVerdict := fun _ => rfl
  constructor
  · intro e
    rw [h1]
    exact ⟨rfl, rfl⟩
  · intro users body
    have hpe : parseInsertUser (withPermissiveVerifier env) body =
        parseInsertUser env body := rfl
    simp only [registerRoute, hpe]
    cases hp : parseInsertUser env body with
    | error _ => rfl
    | ok iu =>
      simp only [h1, h2, permissiveVerdict]
      rfl

/-- Witness for C5: a verifier that fails with a network error behaves like a
    healthy permissive one. -/
theorem verifier_failure_permissive_witness :
    (∀ e, (verifyEmailWithCleanSignups envNetFail e).isValid = true ∧
          (verifyEmailWithCleanSignups envNetFail e).isTemporary = false) ∧
    ∀ users body, registerRoute envNetFail users body =
      registerRoute (withPermissiveVerifier envNetFail) users body :=
  verifier_failure_permissive envNetFail "Network Error" (fun _ => rfl)

/-- Claim C6: registering the same schema-valid, verifier-approved email twice
    gives 201 then 409; `createUser` fails with the duplicate-email `Error`
    whenever an existing record's email matches case-insensitively, the handler
    maps it to 409, and the second request leaves the store unchanged. -/
theorem duplicate_email_201_then_409 (env1 env2 : Env) (users : MemStore)
    (body : RegisterBody) (iu : InsertUser) (hashed : String)
    (hp1 : parseInsertUser env1 body = Except.ok iu)
    (hp2 : parseInsertUser env2 body = Except.ok iu)
    (ht1 : (verifyEmailWithCleanSignups env1 iu.email).isTemporary = false)
    (hv1 : (verifyEmailWithCleanSignups env1 iu.email).isValid = true)
    (ht2 : (verifyEmailWithCleanSignups env2 iu.email).isTemporary = false)
    (hv2 : (verifyEmailWithCleanSignups env2 iu.email).isValid = true)
    (hd : getUserByEmail users iu.email = none)
    (hid : ∀ v ∈ users, v.id ≠ env1.nextId)
    (hb : env1.bcryptHash iu.password 12 = Except.ok hashed) :
    (∀ st iu0 u0, getUserByEmail st iu0.email = some u0 →
      createUser env2 st iu0 =
        Except.error (Thrown.jsError "An account with this email already exists")) ∧
    (registerRoute env1 users body).response.status = 201 ∧
    (registerRoute env2 (registerRoute env1 users body).users body).response.status = 409 ∧
    (registerRoute env2 (registerRoute env1 users body).users body).response.errField =
      some "email" ∧
    (registerRoute env2 (registerRoute env1 users body).users body).users =
      (registerRoute env1 users body).users := by
  have hdup : ∀ st iu0 u0, getUserByEmail st iu0.email = some u0 →
      createUser env2 st iu0 =
        Except.error (Thrown.jsError "An account with this email already exists") := by
    intro st iu0 u0 hg
    unfold createUser
    rw [hg]
  have hany : users.any (fun v => v.id == (mkUser env1 iu hashed).id) = false := by
    rw [Bool.eq_false_iff]
    intro hc
    obtain ⟨v, hv, hpv⟩ := List.any_eq_true.mp hc
    exact hid v hv (beq_iff_eq.mp hpv)
  have hmap : mapSet users (mkUser env1 iu hashed) =
      users ++ [mkUser env1 iu hashed] := by
    unfold mapSet
    rw [hany]
    rfl
  have hcu1 : createUser env1 users iu =
      Except.ok (mkUser env1 iu hashed, users ++ [mkUser env1 iu hashed]) := by
    unfold createUser
    rw [hd, hb, ← hmap]
    rfl
  have hr1 : registerRoute env1 users body =
      { response :=
          { status := 201, message := "Registration successful",
            user := some (userToResponse (mkUser env1 iu hashed)) },
        users := users ++ [mkUser env1 iu hashed],
        verifierCalled := true, createUserCalled := true } := by
    simp [registerRoute, hp1, ht1, hv1, hcu1]
  have hd2 : getUserByEmail (users ++ [mkUser env1 iu hashed]) iu.email =
      some (mkUser env1 iu hashed) := by
    unfold getUserByEmail at hd ⊢
    exact find?_append_of_none hd (beq_self_eq_true iu.email.toLower)
  have hcu2 := hdup (users ++ [mkUser env1 iu hashed]) iu (mkUser env1 iu hashed) hd2
  have hr2 : registerRoute env2 (users ++ [mkUser env1 iu hashed]) body =
      { response :=
          handleRegisterError (Thrown.jsError "An account with this email already exists"),
        users := users ++ [mkUser env1 iu hashed],
        verifierCalled := true, createUserCalled := true } := by
    simp [registerRoute, hp2, ht2, hv2, hcu2]
  have hhe : handleRegisterError
      (Thrown.jsError "An account with this email already exists") =
      { status := 409, message := "An account with this email already exists",
        errField := some "email" } := by
    rfl
  refine ⟨hdup, ?_, ?_, ?_, ?_⟩
  · rw [hr1]
  · simp only [hr1]
    rw [hr2, hhe]
  · simp only [hr1]
    rw [hr2, hhe]
  · simp only [hr1]
    rw [hr2]

/-- Witness for C6: registering Jane Doe twice from the empty store gives 201
    then 409 and the second request changes nothing. -/
theorem duplicate_email_201_then_409_witness :
    (∀ st iu0 u0, getUserByEmail st iu0.email = some u0 →
      createUser envOk st iu0 =
        Except.error (Thrown.jsError "An account with this email already exists")) ∧
    (registerRoute envOk [] janeBody).response.status = 201 ∧
    (registerRoute envOk (registerRoute envOk [] janeBody).users janeBody).response.status
      = 409 ∧
    (registerRoute envOk (registerRoute envOk [] janeBody).users janeBody).response.errField
      = some "email" ∧
    (registerRoute envOk (registerRoute envOk [] janeBody).users janeBody).users =
      (registerRoute envOk [] janeBody).users :=
  duplicate_email_201_then_409 envOk envOk [] janeBody janeInsert
    "$2b$12$c2FsdHNhbHRzYWx0c2FsdAabcdefghijklmnopqrstu"
    rfl rfl rfl rfl rfl rfl rfl (by simp) rfl

/-- Claim C7 counterexample: an unexpected error that is an `Error` instance
    (bcrypt rejecting with `Error("bcrypt failure")` — neither a schema
    failure, nor an email-quality rejection, nor a duplicate email) makes the
    handler answer 400 with the raw error message, not 500 with the generic
    message as the claim states. -/
theorem unexpected_error_500_counterexample :
    (registerRoute envBcryptThrow [] janeBody).response.status = 400 ∧
    (registerRoute envBcryptThrow [] janeBody).response.message = "bcrypt failure" ∧
    (registerRoute envBcryptThrow [] janeBody).response.status ≠ 500 := by
  refine ⟨rfl, rfl, by decide⟩

/-- Claim C7 amended: an unexpected error reaches the generic 500 response only
    when the thrown value is not an `Error` instance; an unexpected `Error`
    whose message does not mention "email already exists" yields 400 carrying
    that message. In both cases the store is unchanged. -/
theorem unexpected_error_amended (env : Env) (users : MemStore) (body : RegisterBody)
    (iu : InsertUser) (e : Thrown)
    (hp : parseInsertUser env body = Except.ok iu)
    (ht : (verifyEmailWithCleanSignups env iu.email).isTemporary = false)
    (hv : (verifyEmailWithCleanSignups env iu.email).isValid = true)
    (hd : getUserByEmail users iu.email = none)
    (hb : env.bcryptHash iu.password 12 = Except.error e) :
    (registerRoute env users body).response = handleRegisterError e ∧
    (registerRoute env users body).users = users ∧
    (e = Thrown.nonError →
      (registerRoute env users body).response.status = 500 ∧
      (registerRoute env users body).response.message =
        "Registration failed. Please try again.") ∧
    (∀ m, e = Thrown.jsError m → strIncludes m "email already exists" = false →
      (registerRoute env users body).response.status = 400 ∧
      (registerRoute env users body).response.message = m) := by
  have hcu : createUser env users iu = Except.error e := by
    unfold createUser
    rw [hd, hb]
  have hr : registerRoute env users body =
      { response := handleRegisterError e, users := users,
        verifierCalled := true, createUserCalled := true } := by
    simp [registerRoute, hp, ht, hv, hcu]
  rw [hr]
  refine ⟨rfl, rfl, ?_, ?_⟩
  · rintro rfl
    exact ⟨rfl, rfl⟩
  · rintro m rfl hm
    simp [handleRegisterError, hm]

/-- Witness for the amended C7: bcrypt rejecting with a non-`Error` value
    reaches the generic 500 branch. -/
theorem unexpected_error_amended_witness :
    (registerRoute envBcryptNonError [] janeBody).response =
      handleRegisterError Thrown.nonError ∧
    (registerRoute envBcryptNonError [] janeBody).users = [] ∧
    (Thrown.nonError = Thrown.nonError →
      (registerRoute envBcryptNonError [] janeBody).response.status = 500 ∧
      (registerRoute envBcryptNonError [] janeBody).response.message =
        "Registration failed. Please try again.") ∧
    (∀ m, Thrown.nonError = Thrown.jsError m →
      strIncludes m "email already exists" = false →
      (registerRoute envBcryptNonError [] janeBody).response.status = 400 ∧
      (registerRoute envBcryptNonError [] janeBody).response.message = m) :=
  unexpected_error_amended envBcryptNonError [] janeBody janeInsert Thrown.nonError
    rfl rfl rfl rfl rfl

/-- Claim C8: a successful `createUser` stores as the record's password exactly
    the bcrypt hash of the supplied plaintext at cost factor 12; whenever that
    hash differs from the plaintext, no record of the new store holds the
    plaintext unless it already did before the call. -/
theorem createUser_password_hashed (env : Env) (users users' : MemStore)
    (iu : InsertUser) (u : User)
    (h : createUser env users iu = Except.ok (u, users')) :
    env.bcryptHash iu.password 12 = Except.ok u.password ∧
    (u.password ≠ iu.password →
      ∀ v ∈ users', v ∈ users ∨ v.password ≠ iu.password) := by
  obtain ⟨-, hb, -, -, -, -, -, husers⟩ := createUser_ok_elim h
  refine ⟨hb, ?_⟩
  intro hne v hv
  rw [husers] at hv
  rcases mem_mapSet hv with hmem | rfl
  · exact Or.inl hmem
  · exact Or.inr hne

/-- Witness for C8: Jane Doe's stored record carries the cost-12 bcrypt hash. -/
theorem createUser_password_hashed_witness :
    envOk.bcryptHash janeInsert.password 12 = Except.ok janeUser.password ∧
    (janeUser.password ≠ janeInsert.password →
      ∀ v ∈ [janeUser], v ∈ ([] : MemStore) ∨ v.password ≠ janeInsert.password) :=
  createUser_password_hashed envOk [] [janeUser] janeInsert janeUser rfl

/-- Claim C9 counterexample: after a successful submission the controller does
    not reset the password-visibility toggle — from a filled-in state with the
    password shown, `onRegistrationSuccess` keeps `showPassword = true`, so the
    resulting state is not the initial one. -/
theorem onSuccess_reset_counterexample :
    (onRegistrationSuccess filledClientState).showPassword = true ∧
    onRegistrationSuccess filledClientState ≠ initialClientState := by
  refine ⟨rfl, by decide⟩

/-- Claim C9 amended: `registrationMutation.onSuccess` resets the form fields,
    the email status, the password-strength score and the terms checkbox to
    their initial values, but leaves the password-visibility toggle as it was. -/
theorem onSuccess_reset_amended (s : ClientState) :
    onRegistrationSuccess s =
      { initialClientState with showPassword := s.showPassword } := rfl

/-- Claim C10: a `POST /api/verify-email` body with a missing or syntactically
    invalid email lands in the catch-all branch and gets the generic 500, not
    400, and no outbound verification call is made. -/
theorem verifyEmail_malformed_500 (env : Env) (body : VerifyEmailBody)
    (h : body.email = none ∨ ∃ e, body.email = some e ∧ env.emailValid e = false) :
    (verifyEmailRoute env body).1.status = 500 ∧
    (verifyEmailRoute env body).1.message = "Unable to verify email at this time" ∧
    (verifyEmailRoute env body).2 = false := by
  rcases h with h | ⟨e, he, hv⟩
  · simp [verifyEmailRoute, parseVerifyEmail, h]
  · simp [verifyEmailRoute, parseVerifyEmail, he, hv]

/-- Witness for C10: a body without an email field gets 500 and no outbound
    call. -/
theorem verifyEmail_malformed_500_witness :
    (verifyEmailRoute envOk noEmailBody).1.status = 500 ∧
    (verifyEmailRoute envOk noEmailBody).1.message =
      "Unable to verify email at this time" ∧
    (verifyEmailRoute envOk noEmailBody).2 = false :=
  verifyEmail_malformed_500 envOk noEmailBody (Or.inl rfl)

end Signup
